import Mathlib

/-!
Shallow embedding of `dao-couchdb` (`src/dao.js`), a DAO wrapper over a
partitioned CouchDB database.  JavaScript values that can reach the DAO's
dynamically-typed arguments are modelled by `JVal`; documents are modelled
as a record of the schema-known fields (each optional, absence meaning the
key is not present on the JS object) plus an association list of the
remaining open-schema fields.  The external store (`db`) is a response
oracle; each DAO operation returns its result together with the list of
store calls it issued, so that "no store call before validation errors"
is expressible.  Clock reads (`Math.floor(Date.now() / 1000)`) are passed
as explicit integer parameters in evaluation order.
-/

deriving instance DecidableEq for Except

namespace DaoCouch

/-- A JavaScript value as far as the DAO's checks can distinguish them:
strings, integer numbers, booleans, null/undefined-like values.  `other`
stands for any further value (objects, arrays, non-integer numbers) whose
only relevant property here is that it is not a string or integer. -/
inductive JVal where
  | str : String → JVal
  | int : Int → JVal
  | bool : Bool → JVal
  | null : JVal
  | other : JVal
deriving DecidableEq, Repr

/-- JavaScript truthiness of a `JVal` (`null`/`undefined` falsy, `""` and
`0` falsy; `other` values such as objects are truthy). -/
def JVal.truthy : JVal → Bool
  | .str s => !(s == "")
  | .int n => !(n == 0)
  | .bool b => b
  | .null => false
  | .other => true

/-- Truthiness of a possibly-absent property (`assert(doc._rev)` style):
an absent property reads as `undefined`, which is falsy. -/
def truthyOpt : Option JVal → Bool
  | none => false
  | some v => v.truthy

/-- Coercion used by the guards `typeof x === "string" && x`: `some s`
iff `x` is a non-empty string. -/
def asNonEmptyString : JVal → Option String
  | .str s => if s == "" then none else some s
  | _ => none

/-- A document: the schema-known fields, each `none` when the key is absent
on the JS object, plus the open-schema remainder as an association list. -/
structure Doc where
  _id : Option JVal := none
  _rev : Option JVal := none
  c_by : Option JVal := none
  c_at : Option JVal := none
  m_by : Option JVal := none
  m_at : Option JVal := none
  extra : List (String × JVal) := []
deriving DecidableEq, Repr

/-- The error kinds of section 7 of the design, together with the raw
assertion message; store-native errors are wrapped unmodified. -/
structure StoreError where
  statusCode : Int
  body : String := ""
deriving DecidableEq, Repr

inductive DAOError where
  | invalidArgument (msg : String)
  | invalidDocument
  | alreadyExists
  | identityMismatch
  | preconditionFailed
  | notUnique
  | store (e : StoreError)
deriving DecidableEq, Repr

/-- The errors the DAO raises from its argument/document checks alone,
before touching the store.  `notUnique` is not among them: in the source
it is decided from the store's view response (and it never arises from
bad arguments, which fail with `invalidArgument` first). -/
def DAOError.isPreStoreCheck : DAOError → Bool
  | .invalidArgument _ => true
  | .invalidDocument => true
  | .alreadyExists => true
  | .identityMismatch => true
  | .preconditionFailed => true
  | .notUnique => false
  | .store _ => false

/-- Check that `s` starts with `pre` (the effect of the anchored regex
`^pre` on `s`), computed on the underlying character lists. -/
def startsWithStr (s pre : String) : Bool :=
  pre.data.isPrefixOf s.data

/-- Validation of `_id` against the `/DocumentID` schema: a string
matching `^type:`. -/
def matchesDocumentID (type : String) : JVal → Bool
  | .str s => startsWithStr s (type ++ ":")
  | _ => false

/-- A value against the `/NonEmptyString` schema: string, `minLength` 1. -/
def isNonEmptyStringVal : JVal → Bool
  | .str s => !(s == "")
  | _ => false

/-- A value against the integer schema constraint. -/
def isIntegerVal : JVal → Bool
  | .int _ => true
  | _ => false

/-- The `jsonschema` result of validating `doc` against the `/Document`
schema of `src/dao.js` lines 38–51: `_id` required and matching
`^type:`; `_rev` optional, non-empty string when present; `c_by`/`m_by`
required non-empty strings; `c_at`/`m_at` required integers; additional
properties allowed. -/
def validDoc (type : String) (doc : Doc) : Bool :=
  (match doc._id with | some v => matchesDocumentID type v | none => false) &&
  (match doc._rev with | some v => isNonEmptyStringVal v | none => true) &&
  (match doc.c_by with | some v => isNonEmptyStringVal v | none => false) &&
  (match doc.c_at with | some v => isIntegerVal v | none => false) &&
  (match doc.m_by with | some v => isNonEmptyStringVal v | none => false) &&
  (match doc.m_at with | some v => isIntegerVal v | none => false)

/-- Result shape returned by `jsonschema`; the DAO only consults
`valid`. -/
structure ValidationResult where
  valid : Bool
deriving DecidableEq, Repr

/-- Result of `db.insert`. -/
structure InsertRes where
  id : String
  rev : String
deriving DecidableEq, Repr

/-- Result of `db.destroy`. -/
structure DestroyRes where
  id : String
  rev : String
deriving DecidableEq, Repr

/-- One row of a view response. -/
structure Row where
  key : List JVal
  value : JVal
  doc : Option Doc := none
deriving DecidableEq, Repr

/-- A view response, `{rows: [...]}`. -/
structure ViewRes where
  rows : List Row
deriving DecidableEq, Repr

/-- The view-query options the DAO constructs; `none` means the option is
absent (JS `undefined`), i.e. left to the store's default. -/
structure ViewOpts where
  reduce : Option Bool := none
  include_docs : Option Bool := none
  limit : Option Nat := none
  key : Option (List JVal) := none
deriving DecidableEq, Repr

/-- A store call, recorded so that claims about "no store interaction
before validation errors" can be stated. -/
inductive StoreCall where
  | insert (doc : Doc)
  | get (id : String)
  | destroy (id : String) (rev : JVal)
  | partitionedView (partition ddoc viewName : String) (opts : ViewOpts)
deriving DecidableEq, Repr

/-- The external store as a response oracle for each kind of call. -/
structure Store where
  insert : Doc → Except StoreError InsertRes
  get : String → Except StoreError Doc
  destroy : String → JVal → Except StoreError DestroyRes
  partitionedView : String → String → String → ViewOpts → Except StoreError ViewRes

/-- A DAO instance holds its `type`; the `db` handle is passed explicitly
to each operation. -/
structure DAO where
  type : String
deriving DecidableEq, Repr

/-- Method `DAO.prototype.validate` (lines 53–56): asserts `doc` is an object
(guaranteed by the `Doc` type here) and runs the schema validator. -/
def DAO.validate (dao : DAO) (doc : Doc) : ValidationResult :=
  ⟨validDoc dao.type doc⟩

/-- Merge `_rev: res.rev` before the spread of `doc` as in `create`
(line 63): the spread comes second, so a `_rev` property present on
`doc` would win over `res.rev`. -/
def mergeRevCreate (doc : Doc) (rev : String) : Doc :=
  match doc._rev with
  | some _ => doc
  | none => { doc with _rev := some (.str rev) }

/-- Method `DAO.prototype.create` (lines 58–64): validate, reject a present
(truthy) `_rev`, insert, return the doc merged with the store-assigned
revision.  The second component records the store calls issued. -/
def DAO.create (dao : DAO) (store : Store) (doc : Doc) :
    Except DAOError Doc × List StoreCall :=
  if !(dao.validate doc).valid then (.error .invalidDocument, [])
  else if truthyOpt doc._rev then (.error .alreadyExists, [])
  else
    match store.insert doc with
    | .error e => (.error (.store e), [.insert doc])
    | .ok res => (.ok (mergeRevCreate doc res.rev), [.insert doc])

/-- Method `DAO.prototype.retrieve` (lines 66–77): check the id, get the
qualified id from the store, convert a 404 store error to `null` (here
`none`), rethrow every other store error unchanged. -/
def DAO.retrieve (dao : DAO) (store : Store) (id : JVal) :
    Except DAOError (Option Doc) × List StoreCall :=
  match asNonEmptyString id with
  | none => (.error (.invalidArgument "bad document id"), [])
  | some s =>
    let _id := dao.type ++ ":" ++ s
    match store.get _id with
    | .ok doc => (.ok (some doc), [.get _id])
    | .error err =>
      if !(err.statusCode == 404) then (.error (.store err), [.get _id])
      else (.ok none, [.get _id])

/-- Method `DAO.prototype.update` (lines 79–86): check the id, validate, check
`doc._id === type:id`, require a truthy `_rev`, insert, return
`{ ...doc, _rev: res.rev }`. -/
def DAO.update (dao : DAO) (store : Store) (id : JVal) (doc : Doc) :
    Except DAOError Doc × List StoreCall :=
  match asNonEmptyString id with
  | none => (.error (.invalidArgument "bad document id"), [])
  | some s =>
    if !(dao.validate doc).valid then (.error .invalidDocument, [])
    else if !(doc._id == some (.str (dao.type ++ ":" ++ s))) then
      (.error .identityMismatch, [])
    else if !(truthyOpt doc._rev) then (.error .preconditionFailed, [])
    else
      match store.insert doc with
      | .error e => (.error (.store e), [.insert doc])
      | .ok res => (.ok { doc with _rev := some (.str res.rev) }, [.insert doc])

/-- Method `DAO.prototype.delete` (lines 88–95): check the id, `doc` an object
(guaranteed by the type), `doc._id` a non-empty string, `doc._id ===
type:id`, a truthy `_rev`, then destroy by id and revision. -/
def DAO.delete (dao : DAO) (store : Store) (id : JVal) (doc : Doc) :
    Except DAOError DestroyRes × List StoreCall :=
  match asNonEmptyString id with
  | none => (.error (.invalidArgument "bad document id"), [])
  | some s =>
    match doc._id with
    | some (.str did) =>
      if did == "" then (.error .invalidDocument, [])
      else if !(did == dao.type ++ ":" ++ s) then (.error .identityMismatch, [])
      else
        match doc._rev with
        | some rv =>
          if !rv.truthy then (.error .preconditionFailed, [])
          else
            match store.destroy did rv with
            | .error e => (.error (.store e), [.destroy did rv])
            | .ok res => (.ok res, [.destroy did rv])
        | none => (.error .preconditionFailed, [])
    | _ => (.error .invalidDocument, [])

/-- The view-query options `findOne` constructs (lines 117–122). -/
def findOneOpts (key : List JVal) : ViewOpts :=
  { reduce := some false, include_docs := some true, limit := some 2,
    key := some key }

/-- Method `DAO.prototype.findOne` (lines 114–125): check the view name and a
non-empty key array, query with `limit=2`, `include_docs=true`, exact
`key`; more than one returned row is `NotUnique`; otherwise the sole
row's attached doc, or `null` when no row matched. -/
def DAO.findOne (dao : DAO) (store : Store) (viewName : JVal)
    (key : List JVal) : Except DAOError (Option Doc) × List StoreCall :=
  match asNonEmptyString viewName with
  | none => (.error (.invalidArgument "invalid view"), [])
  | some vn =>
    if key.length == 0 then (.error (.invalidArgument "invalid key"), [])
    else
      let call := StoreCall.partitionedView dao.type dao.type vn
        (findOneOpts key)
      match store.partitionedView dao.type dao.type vn (findOneOpts key) with
      | .error e => (.error (.store e), [call])
      | .ok res =>
        if !(res.rows.length ≤ 1) then (.error .notUnique, [call])
        else
          match res.rows with
          | [] => (.ok none, [call])
          | r :: _ => (.ok r.doc, [call])

/-- The view-query options `exists` constructs (lines 130–135). -/
def existsOpts (key : List JVal) : ViewOpts :=
  { reduce := some false, include_docs := some false, limit := some 1,
    key := some key }

/-- Method `DAO.prototype.exists` (lines 127–137): same argument checks as
`findOne`, query with `limit=1`, `include_docs=false`, exact `key`;
returns `!!res.rows.length`. -/
def DAO.exists (dao : DAO) (store : Store) (viewName : JVal)
    (key : List JVal) : Except DAOError Bool × List StoreCall :=
  match asNonEmptyString viewName with
  | none => (.error (.invalidArgument "invalid view"), [])
  | some vn =>
    if key.length == 0 then (.error (.invalidArgument "invalid key"), [])
    else
      let call := StoreCall.partitionedView dao.type dao.type vn
        (existsOpts key)
      match store.partitionedView dao.type dao.type vn (existsOpts key) with
      | .error e => (.error (.store e), [call])
      | .ok res => (.ok (!(res.rows.length == 0)), [call])

/-- The view-query options `count` constructs (lines 142–145): the key
filter is attached only when the variadic key list is non-empty
(`key: key.length ? key : undefined`). -/
def countOpts (key : List JVal) : ViewOpts :=
  { reduce := some true,
    key := if key.length == 0 then none else some key }

/-- Method `DAO.prototype.count` (lines 139–148): check the view name (the key,
being variadic, is always an array), query with `reduce=true` and the
conditional key filter; return the first row's reduced value, or `0`
when the reduction yielded no rows. -/
def DAO.count (dao : DAO) (store : Store) (viewName : JVal)
    (key : List JVal) : Except DAOError JVal × List StoreCall :=
  match asNonEmptyString viewName with
  | none => (.error (.invalidArgument "invalid view"), [])
  | some vn =>
    let call := StoreCall.partitionedView dao.type dao.type vn (countOpts key)
    match store.partitionedView dao.type dao.type vn (countOpts key) with
    | .error e => (.error (.store e), [call])
    | .ok res =>
      match res.rows with
      | [] => (.ok (.int 0), [call])
      | r :: _ => (.ok r.value, [call])

/-- CouchDB-style execution of a view query over the rows a view emits:
an exact-match `key` filter when one is supplied, then `limit`.  With
`reduce`, a `_count` reduction of the matched rows is returned as a
single row, or no rows at all when nothing matched. -/
def execView (rows : List Row) (opts : ViewOpts) : List Row :=
  let matched :=
    match opts.key with
    | none => rows
    | some k => rows.filter (fun r => r.key == k)
  if opts.reduce = some true then
    match matched with
    | [] => []
    | _ => [{ key := [], value := .int matched.length }]
  else
    match opts.limit with
    | none => matched
    | some n => matched.take n

/-- A store whose partitioned views all emit the same given rows,
executing queries with `execView`; the document CRUD entry points answer
with a plain 404.  Used to relate `exists`/`findOne` to the rows a view
actually contains. -/
def viewStore (rows : List Row) : Store :=
  { insert := fun _ => .error { statusCode := 404 }
    get := fun _ => .error { statusCode := 404 }
    destroy := fun _ _ => .error { statusCode := 404 }
    partitionedView := fun _ _ _ opts => .ok ⟨execView rows opts⟩ }

/-- Static method `DAO.touch` (lines 152–163): `t1` is the value the clock read
`Math.floor(Date.now() / 1000)` on line 158 would return, `t2` the value
of the read on line 161; the source reads the clock once per stamp, so
the two reads are distinct events (equal values only when both fall in
the same second).  Stamps `c_by`/`c_at` only when `c_by` is undefined,
always overwrites `m_by`/`m_at`, and returns the (mutated) document. -/
def DAO.touch (doc : Doc) (userName : JVal) (t1 t2 : Int) :
    Except DAOError Doc :=
  match userName with
  | .str u =>
    if u == "" then .error (.invalidArgument "invalid user name")
    else
      let d1 :=
        match doc.c_by with
        | none => { doc with c_by := some (.str u), c_at := some (.int t1) }
        | some _ => doc
      .ok { d1 with m_by := some (.str u), m_at := some (.int t2) }
  | _ => .error (.invalidArgument "bad user name")

/-! Concrete fixtures, mirroring the shapes used in the test suite. -/

/-- A DAO of type `WIDGET`, as in the test suite. -/
def widget : DAO := ⟨"WIDGET"⟩

/-- A schema-valid, not-yet-persisted document (no `_rev`). -/
def validNewDoc : Doc :=
  { _id := some (.str "WIDGET:w1"), c_by := some (.str "admin"),
    c_at := some (.int 100), m_by := some (.str "admin"),
    m_at := some (.int 100) }

/-- A schema-valid document that already carries a revision. -/
def validRevDoc : Doc :=
  { validNewDoc with _rev := some (.str "1-abc") }

/-- An invalid document (missing every required field) that nevertheless
carries a `_rev`. -/
def revOnlyDoc : Doc := { _rev := some (.str "1-abc") }

/-- A store whose insert/destroy succeed with fixed revisions and whose
get answers 404. -/
def okStore : Store :=
  { insert := fun _ => .ok { id := "WIDGET:w1", rev := "2-def" }
    get := fun _ => .error { statusCode := 404 }
    destroy := fun _ _ => .ok { id := "WIDGET:w1", rev := "3-tomb" }
    partitionedView := fun _ _ _ _ => .ok ⟨[]⟩ }

/-- A store whose every call fails with a 500-style error. -/
def boomStore : Store :=
  { insert := fun _ => .error { statusCode := 500, body := "boom" }
    get := fun _ => .error { statusCode := 500, body := "boom" }
    destroy := fun _ _ => .error { statusCode := 500, body := "boom" }
    partitionedView := fun _ _ _ _ => .error { statusCode := 500, body := "boom" } }

/-- A `by-status`-style view in which exactly one row carries the key
`["ACTIVE"]`. -/
def oneActiveRows : List Row :=
  [ { key := [.str "ACTIVE"], value := .int 1, doc := some validRevDoc },
    { key := [.str "RETIRED"], value := .int 1, doc := some validNewDoc } ]

/-- A `by-status`-style view in which two rows carry the key
`["ACTIVE"]`, as in the spec's `exists` vs `findOne` example. -/
def twoActiveRows : List Row :=
  [ { key := [.str "ACTIVE"], value := .int 1, doc := some validRevDoc },
    { key := [.str "ACTIVE"], value := .int 1, doc := some validNewDoc } ]

/-- A store whose get answers with the persisted `validRevDoc`. -/
def docStore : Store :=
  { okStore with get := fun _ => .ok validRevDoc }

/-- A persisted document carrying an open-schema field, as in the test
suite documents that carry a custom `test` field. -/
def gadgetDoc : Doc :=
  { validRevDoc with extra := [("test", .str "test-value")] }

/-! Claim theorems. -/

/-- C1, counterexample: the claim says a document bearing `_rev` fails
`create` with `AlreadyExists` even when it is invalid; but on the
document `{_rev: "1-abc"}` (invalid: every required field missing)
`create` fails with `InvalidDocument`, because lines 59–60 run the
schema validation before the `_rev` check of line 61. -/
theorem create_rev_invalid_counterexample :
    (DAO.create widget okStore revOnlyDoc).fst = .error .invalidDocument ∧
    DAOError.invalidDocument ≠ DAOError.alreadyExists :=
  ⟨by decide, by decide⟩

/-- C1, amended: `create` on a document that passes schema validation and
contains a (truthy) `_rev` fails with `AlreadyExists`; an invalid
document fails with `InvalidDocument` first, since validation precedes
the `_rev` check. -/
theorem create_rev_alreadyExists (dao : DAO) (store : Store) (doc : Doc)
    (hv : (dao.validate doc).valid = true)
    (hr : truthyOpt doc._rev = true) :
    (dao.create store doc).fst = .error .alreadyExists := by
  simp [DAO.create, hv, hr]

/-- Witness for the amended C1 at the concrete valid document carrying
`_rev = "1-abc"`. -/
theorem create_rev_alreadyExists_witness :
    (DAO.create widget okStore validRevDoc).fst = .error .alreadyExists :=
  create_rev_alreadyExists widget okStore validRevDoc (by decide) (by decide)

/-- C3, counterexample: `touch` reads the clock once for `c_at` (line
158) and once for `m_at` (line 161); with a monotone clock whose two
reads return 5 and then 6 (the call straddles a second boundary),
`touch({}, "alice")` yields `c_at = 5` and `m_at = 6`, refuting the
claim that `c_at` and `m_at` are always the same integer. -/
theorem touch_same_second_counterexample :
    (5 : Int) ≤ 6 ∧
    DAO.touch {} (.str "alice") 5 6
      = .ok { c_by := some (.str "alice"), c_at := some (.int 5),
              m_by := some (.str "alice"), m_at := some (.int 6) } ∧
    JVal.int 5 ≠ JVal.int 6 :=
  ⟨by decide, by decide, by decide⟩

/-- C3, amended: `touch({}, "alice")` stamps `c_by = m_by = "alice"`,
`c_at` with the first clock read and `m_at` with the second; when both
reads return the same epoch second `T` (the usual case — the claim's
shape `{c_by:"alice", c_at:T, m_by:"alice", m_at:T}`), the two
timestamps are the same integer `T`. -/
theorem touch_empty_alice (t1 t2 : Int) :
    DAO.touch {} (.str "alice") t1 t2
      = .ok { c_by := some (.str "alice"), c_at := some (.int t1),
              m_by := some (.str "alice"), m_at := some (.int t2) } ∧
    (t1 = t2 →
      DAO.touch {} (.str "alice") t1 t2
        = .ok { c_by := some (.str "alice"), c_at := some (.int t1),
                m_by := some (.str "alice"), m_at := some (.int t1) }) := by
  constructor
  · rfl
  · intro h
    subst h
    rfl

/-- Witness for the amended C3 with both clock reads returning 7. -/
theorem touch_empty_alice_witness :
    DAO.touch {} (.str "alice") 7 7
      = .ok { c_by := some (.str "alice"), c_at := some (.int 7),
              m_by := some (.str "alice"), m_at := some (.int 7) } :=
  (touch_empty_alice 7 7).2 rfl

/-- C2: `update(id, doc)` fails with `InvalidArgument` when `id` is not a
non-empty string; otherwise with `InvalidDocument` when validation
fails; otherwise with `IdentityMismatch` when `doc._id` differs from
`type:id` (decided before the revision check, so regardless of `_rev`);
otherwise with `PreconditionFailed` when `_rev` is absent (falsy); for
`delete` too the identity check precedes the revision check; on success
`update` returns `doc` merged with the store-returned new `_rev`. -/
theorem update_delete_contract (dao : DAO) (store : Store) (id : JVal)
    (doc : Doc) :
    (asNonEmptyString id = none →
      (dao.update store id doc).fst
        = .error (.invalidArgument "bad document id")) ∧
    (∀ s, asNonEmptyString id = some s →
      (dao.validate doc).valid = false →
      (dao.update store id doc).fst = .error .invalidDocument) ∧
    (∀ s, asNonEmptyString id = some s →
      (dao.validate doc).valid = true →
      doc._id ≠ some (.str (dao.type ++ ":" ++ s)) →
      (dao.update store id doc).fst = .error .identityMismatch) ∧
    (∀ s, asNonEmptyString id = some s →
      (dao.validate doc).valid = true →
      doc._id = some (.str (dao.type ++ ":" ++ s)) →
      truthyOpt doc._rev = false →
      (dao.update store id doc).fst = .error .preconditionFailed) ∧
    (∀ s did, asNonEmptyString id = some s →
      doc._id = some (.str did) → did ≠ "" →
      did ≠ dao.type ++ ":" ++ s →
      (dao.delete store id doc).fst = .error .identityMismatch) ∧
    (∀ s res, asNonEmptyString id = some s →
      (dao.validate doc).valid = true →
      doc._id = some (.str (dao.type ++ ":" ++ s)) →
      truthyOpt doc._rev = true →
      store.insert doc = .ok res →
      (dao.update store id doc).fst
        = .ok { doc with _rev := some (.str res.rev) }) := by
  refine ⟨?_, ?_, ?_, ?_, ?_, ?_⟩
  · intro h
    simp [DAO.update, h]
  · intro s hs hv
    simp [DAO.update, hs, hv]
  · intro s hs hv hne
    simp [DAO.update, hs, hv, hne]
  · intro s hs hv hid hr
    simp [DAO.update, hs, hv, hid, hr]
  · intro s did hs hid hne0 hne
    simp [DAO.delete, hs, hid, hne0, hne]
  · intro s res hs hv hid hr hins
    simp [DAO.update, hs, hv, hid, hr, hins]

/-- Witness for C2: each branch of the contract exercised at a concrete
input against the `WIDGET` DAO and a store whose insert yields revision
`2-def`. -/
theorem update_delete_contract_witness :
    (DAO.update widget okStore (.int 5) validRevDoc).fst
      = .error (.invalidArgument "bad document id") ∧
    (DAO.update widget okStore (.str "w1") revOnlyDoc).fst
      = .error .invalidDocument ∧
    (DAO.update widget okStore (.str "w2") validRevDoc).fst
      = .error .identityMismatch ∧
    (DAO.update widget okStore (.str "w1") validNewDoc).fst
      = .error .preconditionFailed ∧
    (DAO.delete widget okStore (.str "w2") validNewDoc).fst
      = .error .identityMismatch ∧
    (DAO.update widget okStore (.str "w1") validRevDoc).fst
      = .ok { validRevDoc with _rev := some (.str "2-def") } := by
  refine ⟨?_, ?_, ?_, ?_, ?_, ?_⟩
  · exact (update_delete_contract widget okStore (.int 5) validRevDoc).1
      (by decide)
  · exact (update_delete_contract widget okStore (.str "w1") revOnlyDoc).2.1
      "w1" (by decide) (by decide)
  · exact (update_delete_contract widget okStore (.str "w2") validRevDoc).2.2.1
      "w2" (by decide) (by decide) (by decide)
  · exact (update_delete_contract widget okStore (.str "w1")
      validNewDoc).2.2.2.1 "w1" (by decide) (by decide) (by decide) (by decide)
  · exact (update_delete_contract widget okStore (.str "w2")
      validNewDoc).2.2.2.2.1 "w2" "WIDGET:w1" (by decide) (by decide)
      (by decide) (by decide)
  · exact (update_delete_contract widget okStore (.str "w1")
      validRevDoc).2.2.2.2.2 "w1" { id := "WIDGET:w1", rev := "2-def" }
      (by decide) (by decide) (by decide) (by decide) rfl

/-- C4: `retrieve(id)` fails with `InvalidArgument` when `id` is not a
non-empty string; when the store reports a 404 ("not found") for the
qualified id `type:id` it returns `null` (here `none`) without an
error; every other store error propagates unchanged; a found document
is returned as is. -/
theorem retrieve_contract (dao : DAO) (store : Store) (id : JVal) :
    (asNonEmptyString id = none →
      (dao.retrieve store id).fst
        = .error (.invalidArgument "bad document id")) ∧
    (∀ s e, asNonEmptyString id = some s →
      store.get (dao.type ++ ":" ++ s) = .error e →
      e.statusCode = 404 →
      (dao.retrieve store id).fst = .ok none) ∧
    (∀ s e, asNonEmptyString id = some s →
      store.get (dao.type ++ ":" ++ s) = .error e →
      e.statusCode ≠ 404 →
      (dao.retrieve store id).fst = .error (.store e)) ∧
    (∀ s d, asNonEmptyString id = some s →
      store.get (dao.type ++ ":" ++ s) = .ok d →
      (dao.retrieve store id).fst = .ok (some d)) := by
  refine ⟨?_, ?_, ?_, ?_⟩
  · intro h
    simp [DAO.retrieve, h]
  · intro s e hs hget h404
    simp [DAO.retrieve, hs, hget, h404]
  · intro s e hs hget h404
    simp [DAO.retrieve, hs, hget, h404]
  · intro s d hs hget
    simp [DAO.retrieve, hs, hget]

/-- Witness for C4: a 404 store yields `none`, a 500 store error
propagates unchanged, a successful get returns the document, and a
non-string id fails with `InvalidArgument`. -/
theorem retrieve_contract_witness :
    (DAO.retrieve widget okStore (.str "w1")).fst = .ok none ∧
    (DAO.retrieve widget boomStore (.str "w1")).fst
      = .error (.store { statusCode := 500, body := "boom" }) ∧
    (DAO.retrieve widget docStore (.str "w1")).fst
      = .ok (some validRevDoc) ∧
    (DAO.retrieve widget okStore (.int 0)).fst
      = .error (.invalidArgument "bad document id") := by
  refine ⟨?_, ?_, ?_, ?_⟩
  · exact (retrieve_contract widget okStore (.str "w1")).2.1 "w1"
      { statusCode := 404 } (by decide) rfl (by decide)
  · exact (retrieve_contract widget boomStore (.str "w1")).2.2.1 "w1"
      { statusCode := 500, body := "boom" } (by decide) rfl (by decide)
  · exact (retrieve_contract widget docStore (.str "w1")).2.2.2 "w1"
      validRevDoc (by decide) rfl
  · exact (retrieve_contract widget okStore (.int 0)).1 (by decide)

/-- A non-empty key list fails the `key.length == 0` guard. -/
theorem length_beq_zero_of_ne_nil {key : List JVal} (hk : key ≠ []) :
    (key.length == 0) = false := by
  cases key with
  | nil => exact absurd rfl hk
  | cons a as => rfl

/-- C5: for a valid view name and non-empty key, `findOne` issues exactly
one `partitionedView` call with `limit=2`, `include_docs=true` and the
exact `key`; on the store's response, two (or more) rows fail with
`NotUnique`, exactly one row returns that row's attached document, and
zero rows return `null` (here `none`). -/
theorem findOne_contract (dao : DAO) (store : Store) (viewName : JVal)
    (key : List JVal) (vn : String)
    (hvn : asNonEmptyString viewName = some vn) (hk : key ≠ []) :
    (dao.findOne store viewName key).snd
      = [.partitionedView dao.type dao.type vn
          { reduce := some false, include_docs := some true,
            limit := some 2, key := some key }] ∧
    ∀ res,
      store.partitionedView dao.type dao.type vn (findOneOpts key)
        = .ok res →
      (2 ≤ res.rows.length →
        (dao.findOne store viewName key).fst = .error .notUnique) ∧
      (∀ r, res.rows = [r] →
        (dao.findOne store viewName key).fst = .ok r.doc) ∧
      (res.rows = [] →
        (dao.findOne store viewName key).fst = .ok none) := by
  have hk0 := length_beq_zero_of_ne_nil hk
  constructor
  · cases hres : store.partitionedView dao.type dao.type vn (findOneOpts key)
      with
    | error e =>
      simp only [findOneOpts] at hres
      simp [DAO.findOne, hvn, hk0, findOneOpts, hres]
    | ok res =>
      simp only [findOneOpts] at hres
      simp [DAO.findOne, hvn, hk0, findOneOpts, hres]
      split
      · rfl
      · split <;> rfl
  · intro res hres
    refine ⟨?_, ?_, ?_⟩
    · intro h2
      have hle : ¬ res.rows.length ≤ 1 := by omega
      simp [DAO.findOne, hvn, hk0, hres, hle]
    · intro r hr
      simp [DAO.findOne, hvn, hk0, hres, hr]
    · intro hr
      simp [DAO.findOne, hvn, hk0, hres, hr]

/-- Witness for C5 on a view holding exactly one `["ACTIVE"]` row: the
sole row's document is returned. -/
theorem findOne_contract_witness :
    (DAO.findOne widget (viewStore oneActiveRows) (.str "by-status")
      [.str "ACTIVE"]).fst = .ok (some validRevDoc) := by
  have h := findOne_contract widget (viewStore oneActiveRows)
    (.str "by-status") [.str "ACTIVE"] "by-status" (by decide) (by decide)
  exact (h.2 ⟨execView oneActiveRows (findOneOpts [.str "ACTIVE"])⟩ rfl).2.1
    { key := [.str "ACTIVE"], value := .int 1, doc := some validRevDoc }
    (by decide)

/-- The `count` option record spelt with a propositional emptiness test:
the key filter is present exactly when the key list is non-empty. -/
theorem countOpts_key (key : List JVal) :
    countOpts key
      = { reduce := some true, include_docs := none, limit := none,
          key := if key = [] then none else some key } := by
  cases key <;> simp [countOpts]

/-- C6: for a valid view name, `count` issues exactly one
`partitionedView` call with `reduce=true` and the exact-match key
filter attached only when at least one key component was supplied
(otherwise no key option, an unfiltered reduction); on the store's
response it returns the first row's reduced value, or `0` when the
reduction yields no rows. -/
theorem count_contract (dao : DAO) (store : Store) (viewName : JVal)
    (key : List JVal) (vn : String)
    (hvn : asNonEmptyString viewName = some vn) :
    (dao.count store viewName key).snd
      = [.partitionedView dao.type dao.type vn
          { reduce := some true, include_docs := none, limit := none,
            key := if key = [] then none else some key }] ∧
    ∀ res,
      store.partitionedView dao.type dao.type vn (countOpts key) = .ok res →
      (res.rows = [] → (dao.count store viewName key).fst = .ok (.int 0)) ∧
      (∀ r rest, res.rows = r :: rest →
        (dao.count store viewName key).fst = .ok r.value) := by
  constructor
  · rw [← countOpts_key]
    cases hres : store.partitionedView dao.type dao.type vn (countOpts key)
      with
    | error e =>
      simp [DAO.count, hvn, hres]
    | ok res =>
      simp only [DAO.count, hvn, hres]
      split <;> rfl
  · intro res hres
    refine ⟨?_, ?_⟩
    · intro hr
      simp [DAO.count, hvn, hres, hr]
    · intro r rest hr
      simp [DAO.count, hvn, hres, hr]

/-- Witness for C6: with no key component the unfiltered reduction over a
two-row view counts 2; with a key matching nothing the reduction yields
no rows and `count` returns 0. -/
theorem count_contract_witness :
    (DAO.count widget (viewStore twoActiveRows) (.str "by-status") []).fst
      = .ok (.int 2) ∧
    (DAO.count widget (viewStore twoActiveRows) (.str "by-status")
      [.str "GONE"]).fst = .ok (.int 0) := by
  constructor
  · exact ((count_contract widget (viewStore twoActiveRows) (.str "by-status")
      [] "by-status" (by decide)).2
        ⟨execView twoActiveRows (countOpts [])⟩ rfl).2
      { key := [], value := .int 2 } [] (by decide)
  · exact ((count_contract widget (viewStore twoActiveRows) (.str "by-status")
      [.str "GONE"] "by-status" (by decide)).2
        ⟨execView twoActiveRows (countOpts [.str "GONE"])⟩ rfl).1 (by decide)

/-- Emptiness of the first page of the key-matched rows coincides with
the presence of any matching row in the view. -/
theorem take_one_filter_any (rows : List Row) (key : List JVal) :
    (!((((rows.filter (fun r => r.key == key)).take 1).length) == 0))
      = rows.any (fun r => r.key == key) := by
  induction rows with
  | nil => rfl
  | cons r rs ih =>
    by_cases h : r.key = key
    · simp [h]
    · have hb : (r.key == key) = false := beq_eq_false_iff_ne.mpr h
      simp only [List.filter_cons, List.any_cons, hb]
      simpa using ih

/-- Running an `exists`-shaped query over a view takes the first page of
the exact-key matches. -/
theorem execView_existsOpts (rows : List Row) (key : List JVal) :
    execView rows (existsOpts key)
      = (rows.filter (fun r => r.key == key)).take 1 := by
  simp [execView, existsOpts]

/-- Running a `findOne`-shaped query over a view takes the first two
exact-key matches. -/
theorem execView_findOneOpts (rows : List Row) (key : List JVal) :
    execView rows (findOneOpts key)
      = (rows.filter (fun r => r.key == key)).take 2 := by
  simp [execView, findOneOpts]

/-- C7: for a valid view name and non-empty key, `exists` issues exactly
one `partitionedView` call with `limit=1`, `include_docs=false` and the
exact `key`; over a view holding `rows` it returns `true` exactly when
at least one row's key matches — in particular it still returns `true`
when two or more rows match, where `findOne` on the same view and key
fails with `NotUnique`. -/
theorem exists_contract (dao : DAO) (rows : List Row) (viewName : JVal)
    (key : List JVal) (vn : String)
    (hvn : asNonEmptyString viewName = some vn) (hk : key ≠ []) :
    (dao.exists (viewStore rows) viewName key).snd
      = [.partitionedView dao.type dao.type vn
          { reduce := some false, include_docs := some false,
            limit := some 1, key := some key }] ∧
    (dao.exists (viewStore rows) viewName key).fst
      = .ok (rows.any (fun r => r.key == key)) ∧
    (2 ≤ (rows.filter (fun r => r.key == key)).length →
      (dao.exists (viewStore rows) viewName key).fst = .ok true ∧
      (dao.findOne (viewStore rows) viewName key).fst
        = .error .notUnique) := by
  have hk0 := length_beq_zero_of_ne_nil hk
  have hfst : (dao.exists (viewStore rows) viewName key).fst
      = .ok (rows.any (fun r => r.key == key)) := by
    simp only [DAO.exists, hvn, hk0, viewStore]
    rw [← take_one_filter_any rows key, ← execView_existsOpts rows key]
    simp [existsOpts]
  refine ⟨?_, hfst, ?_⟩
  · simp [DAO.exists, hvn, hk0, existsOpts, viewStore]
  · intro h2
    constructor
    · rw [hfst]
      rcases hany : rows.any (fun r => r.key == key) with _ | _
      · exfalso
        have hnil : rows.filter (fun r => r.key == key) = [] := by
          rw [List.filter_eq_nil_iff]
          intro a ha
          have := List.any_eq_false.mp hany a ha
          simpa using this
        rw [hnil] at h2
        simp at h2
      · rfl
    · have hlen : (execView rows (findOneOpts key)).length = 2 := by
        rw [execView_findOneOpts, List.length_take]
        omega
      have hgt : ¬ ((⟨execView rows (findOneOpts key)⟩ : ViewRes).rows.length
          ≤ 1) := by
        simp [hlen]
      simp only [DAO.findOne, hvn, hk0, viewStore]
      simp [hgt]

/-- Witness for C7: the spec's `by-status` example — two rows carry the
key `["ACTIVE"]`, `exists` answers `true` while `findOne` fails with
`NotUnique`. -/
theorem exists_contract_witness :
    (DAO.exists widget (viewStore twoActiveRows) (.str "by-status")
      [.str "ACTIVE"]).fst = .ok true ∧
    (DAO.findOne widget (viewStore twoActiveRows) (.str "by-status")
      [.str "ACTIVE"]).fst = .error .notUnique :=
  (exists_contract widget twoActiveRows (.str "by-status") [.str "ACTIVE"]
    "by-status" (by decide) (by decide)).2.2 (by decide)

/-- C8: two successive `touch` calls on the same document — the second
with clock reads no earlier than the first call's (`t2 ≤ t4`, wall-clock
monotonicity) — leave `c_by`/`c_at` exactly as the first call left them,
set `m_by` to the second user, and set `m_at` to a timestamp `≥` the
`m_at` the first call left. -/
theorem touch_twice_contract (doc : Doc) (u1 u2 : String) (t1 t2 t3 t4 : Int)
    (h1 : u1 ≠ "") (h2 : u2 ≠ "") (hclock : t2 ≤ t4) :
    ∃ d1 d2,
      DAO.touch doc (.str u1) t1 t2 = .ok d1 ∧
      DAO.touch d1 (.str u2) t3 t4 = .ok d2 ∧
      d2.c_by = d1.c_by ∧ d2.c_at = d1.c_at ∧
      d2.m_by = some (.str u2) ∧
      d1.m_at = some (.int t2) ∧ d2.m_at = some (.int t4) ∧
      t2 ≤ t4 := by
  have h1b : (u1 == "") = false := beq_eq_false_iff_ne.mpr h1
  have h2b : (u2 == "") = false := beq_eq_false_iff_ne.mpr h2
  cases hc : doc.c_by with
  | none =>
    refine ⟨{ doc with
              c_by := some (.str u1)
              c_at := some (.int t1)
              m_by := some (.str u1)
              m_at := some (.int t2) },
            { doc with
              c_by := some (.str u1)
              c_at := some (.int t1)
              m_by := some (.str u2)
              m_at := some (.int t4) },
            ?_, ?_, rfl, rfl, rfl, rfl, rfl, hclock⟩
    · simp [DAO.touch, h1b, hc]
    · simp [DAO.touch, h2b]
  | some v =>
    refine ⟨{ doc with m_by := some (.str u1), m_at := some (.int t2) },
            { doc with m_by := some (.str u2), m_at := some (.int t4) },
            ?_, ?_, rfl, rfl, rfl, rfl, rfl, hclock⟩
    · simp [DAO.touch, h1b, hc]
    · simp [DAO.touch, h2b, hc]

/-- Witness for C8: two touches of the empty document by `alice` then
`bob`, with the clock reading 1, 2, 3, 4 across the four stamps. -/
theorem touch_twice_contract_witness :
    ∃ d1 d2,
      DAO.touch {} (.str "alice") 1 2 = .ok d1 ∧
      DAO.touch d1 (.str "bob") 3 4 = .ok d2 ∧
      d2.c_by = d1.c_by ∧ d2.c_at = d1.c_at ∧
      d2.m_by = some (.str "bob") ∧
      d1.m_at = some (.int 2) ∧ d2.m_at = some (.int 4) ∧
      (2 : Int) ≤ 4 :=
  touch_twice_contract {} "alice" "bob" 1 2 3 4 (by decide) (by decide)
    (by decide)

/-- C10: `touch` changes at most the four audit fields: the returned
document keeps the input's `_id`, `_rev` and every open-schema field,
and equals the input document with only `c_by`, `c_at`, `m_by`, `m_at`
updated (the source mutates and returns the very same object). -/
theorem touch_frame_contract (doc : Doc) (u : String) (t1 t2 : Int)
    (hu : u ≠ "") :
    ∃ d, DAO.touch doc (.str u) t1 t2 = .ok d ∧
      d._id = doc._id ∧ d._rev = doc._rev ∧ d.extra = doc.extra ∧
      d = { doc with
            c_by := d.c_by
            c_at := d.c_at
            m_by := d.m_by
            m_at := d.m_at } := by
  have hub : (u == "") = false := beq_eq_false_iff_ne.mpr hu
  cases hc : doc.c_by with
  | none =>
    exact ⟨{ doc with
             c_by := some (.str u)
             c_at := some (.int t1)
             m_by := some (.str u)
             m_at := some (.int t2) },
           by simp [DAO.touch, hub, hc], rfl, rfl, rfl, rfl⟩
  | some v =>
    exact ⟨{ doc with m_by := some (.str u), m_at := some (.int t2) },
           by simp [DAO.touch, hub, hc], rfl, rfl, rfl, by simp [hc]⟩

/-- Witness for C10 on a persisted document carrying an open-schema
field: `_id`, `_rev` and the extra field survive a touch by `bob`. -/
theorem touch_frame_contract_witness :
    ∃ d, DAO.touch gadgetDoc (.str "bob") 7 8 = .ok d ∧
      d._id = gadgetDoc._id ∧ d._rev = gadgetDoc._rev ∧
      d.extra = gadgetDoc.extra ∧
      d = { gadgetDoc with
            c_by := d.c_by
            c_at := d.c_at
            m_by := d.m_by
            m_at := d.m_at } :=
  touch_frame_contract gadgetDoc "bob" 7 8 (by decide)

/-- C9: whenever `create`, `update`, `delete` or `findOne` fails with one
of the pre-store check errors (`InvalidArgument`, `InvalidDocument`,
`AlreadyExists`, `IdentityMismatch`, `PreconditionFailed` — and
vacuously `NotUnique` on bad arguments, which in fact fail with
`InvalidArgument` first), no store call has been issued.  `NotUnique`
itself is excluded from the pre-store class: it is decided from the
store's view response. -/
theorem validation_before_store (dao : DAO) (store : Store) (doc : Doc)
    (id viewName : JVal) (key : List JVal) :
    (∀ e, (dao.create store doc).fst = .error e →
      e.isPreStoreCheck = true → (dao.create store doc).snd = []) ∧
    (∀ e, (dao.update store id doc).fst = .error e →
      e.isPreStoreCheck = true → (dao.update store id doc).snd = []) ∧
    (∀ e, (dao.delete store id doc).fst = .error e →
      e.isPreStoreCheck = true → (dao.delete store id doc).snd = []) ∧
    (∀ e, (dao.findOne store viewName key).fst = .error e →
      e.isPreStoreCheck = true → (dao.findOne store viewName key).snd = []) := by
  refine ⟨?_, ?_, ?_, ?_⟩
  · intro e hf hp
    cases hv : (dao.validate doc).valid with
    | false => simp [DAO.create, hv]
    | true =>
      cases hr : truthyOpt doc._rev with
      | true => simp [DAO.create, hv, hr]
      | false =>
        cases hi : store.insert doc with
        | error se =>
          simp [DAO.create, hv, hr, hi] at hf
          subst hf
          simp [DAOError.isPreStoreCheck] at hp
        | ok res => simp [DAO.create, hv, hr, hi] at hf
  · intro e hf hp
    cases hs : asNonEmptyString id with
    | none => simp [DAO.update, hs]
    | some s =>
      cases hv : (dao.validate doc).valid with
      | false => simp [DAO.update, hs, hv]
      | true =>
        cases hmid : doc._id == some (.str (dao.type ++ ":" ++ s)) with
        | false => simp [DAO.update, hs, hv, hmid]
        | true =>
          cases hr : truthyOpt doc._rev with
          | false => simp [DAO.update, hs, hv, hmid, hr]
          | true =>
            cases hi : store.insert doc with
            | error se =>
              simp [DAO.update, hs, hv, hmid, hr, hi] at hf
              subst hf
              simp [DAOError.isPreStoreCheck] at hp
            | ok res => simp [DAO.update, hs, hv, hmid, hr, hi] at hf
  · intro e hf hp
    cases hs : asNonEmptyString id with
    | none => simp [DAO.delete, hs]
    | some s =>
      cases hid : doc._id with
      | none => simp [DAO.delete, hs, hid]
      | some v =>
        cases v with
        | str did =>
          cases hd0 : did == "" with
          | true => simp [DAO.delete, hs, hid, hd0]
          | false =>
            cases hdq : did == dao.type ++ ":" ++ s with
            | false => simp [DAO.delete, hs, hid, hd0, hdq]
            | true =>
              cases hrev : doc._rev with
              | none => simp [DAO.delete, hs, hid, hd0, hdq, hrev]
              | some rv =>
                cases hrt : rv.truthy with
                | false => simp [DAO.delete, hs, hid, hd0, hdq, hrev, hrt]
                | true =>
                  cases hdestroy : store.destroy did rv with
                  | error se =>
                    simp [DAO.delete, hs, hid, hd0, hdq, hrev, hrt,
                      hdestroy] at hf
                    subst hf
                    simp [DAOError.isPreStoreCheck] at hp
                  | ok res =>
                    simp [DAO.delete, hs, hid, hd0, hdq, hrev, hrt,
                      hdestroy] at hf
        | int n => simp [DAO.delete, hs, hid]
        | bool b => simp [DAO.delete, hs, hid]
        | null => simp [DAO.delete, hs, hid]
        | other => simp [DAO.delete, hs, hid]
  · intro e hf hp
    cases hvn : asNonEmptyString viewName with
    | none => simp [DAO.findOne, hvn]
    | some vn =>
      cases hk : key.length == 0 with
      | true => simp [DAO.findOne, hvn, hk]
      | false =>
        cases hres : store.partitionedView dao.type dao.type vn
            (findOneOpts key) with
        | error se =>
          simp only [findOneOpts] at hres
          simp [DAO.findOne, hvn, hk, findOneOpts, hres] at hf
          subst hf
          simp [DAOError.isPreStoreCheck] at hp
        | ok res =>
          simp only [findOneOpts] at hres
          by_cases hle : res.rows.length ≤ 1
          · cases hrows : res.rows with
            | nil =>
              simp [DAO.findOne, hvn, hk, findOneOpts, hres, hle, hrows] at hf
            | cons r rest =>
              cases rest with
              | nil =>
                simp [DAO.findOne, hvn, hk, findOneOpts, hres, hle, hrows]
                  at hf
              | cons r2 rest2 =>
                rw [hrows] at hle
                simp only [List.length_cons] at hle
                omega
          · simp [DAO.findOne, hvn, hk, findOneOpts, hres, hle] at hf
            subst hf
            simp [DAOError.isPreStoreCheck] at hp

/-- Witness for C9: a failing `create` (invalid document), `update`
(identity mismatch), `delete` (missing revision) and `findOne` (empty
key) each issue no store call. -/
theorem validation_before_store_witness :
    (DAO.create widget okStore revOnlyDoc).snd = [] ∧
    (DAO.update widget okStore (.str "w2") validRevDoc).snd = [] ∧
    (DAO.delete widget okStore (.str "w1") validNewDoc).snd = [] ∧
    (DAO.findOne widget okStore (.str "v") []).snd = [] := by
  refine ⟨?_, ?_, ?_, ?_⟩
  · exact (validation_before_store widget okStore revOnlyDoc (.str "w1")
      (.str "v") []).1 .invalidDocument (by decide) (by decide)
  · exact (validation_before_store widget okStore validRevDoc (.str "w2")
      (.str "v") []).2.1 .identityMismatch (by decide) (by decide)
  · exact (validation_before_store widget okStore validNewDoc (.str "w1")
      (.str "v") []).2.2.1 .preconditionFailed (by decide) (by decide)
  · exact (validation_before_store widget okStore validNewDoc (.str "w1")
      (.str "v") []).2.2.2 (.invalidArgument "invalid key") (by decide)
      (by decide)

end DaoCouch
